import Mathlib

/-!
Shallow embedding of `HGCalAnalysis/python/ntupleDataFormat.py`: a read-only
object-oriented adaptor over a columnar ROOT TTree.  Branch arrays, the
`_Object` / `_Collection` adaptor base classes, the catalog of concrete
object kinds, the `Event` row cursor and the `HGCALNtuple` store handle are
translated here as pure Lean functions; Python exceptions become explicit
`Except` error values.
-/

set_option autoImplicit false

namespace Ntuple

/-- A value stored in one slot of a branch array.  The adaptor never inspects
numeric payloads (it only moves them around), so scalar entries are modelled
as opaque integers; cross-reference fields hold lists of indices into another
kind's arrays. -/
inductive Value where
  | num : Int → Value
  | idxList : List Int → Value
  deriving DecidableEq

/-- The Python exceptions the adaptor can raise, as explicit error values.
`invalidObject` is the bare `Exception("... is not valid")` raised by
`_Object._checkIsValid` (the spec's `InvalidObjectError`); `attributeError`
is PyROOT's `AttributeError` for a missing branch (the spec's `SchemaError`);
`nameError` is Python's `NameError` for an undefined variable; `typeError`
is Python's `TypeError`; `indexError` is an out-of-range element access. -/
inductive PyError where
  | invalidObject : String → PyError
  | attributeError : String → PyError
  | nameError : String → PyError
  | typeError : String → PyError
  | indexError : PyError
  deriving DecidableEq

/-- The backing ROOT TTree, reduced to the three capabilities the adaptor
uses: the branch arrays of the currently loaded row (a branch name to array
association), the total entry count (`GetEntriesFast`), and the byte count
that `GetEntry` reports for each entry (`<= 0` meaning a failed read). -/
structure TTree where
  branches : List (String × List Value)
  nentries : Int
  readBytes : Int → Int

/-- Branch lookup on the tree: `getattr(tree, name)` in PyROOT, `none` when
no branch of that name exists (Python raises `AttributeError` there). -/
def TTree.getBranch (t : TTree) (name : String) : Option (List Value) :=
  (t.branches.find? (fun p => p.1 == name)).map Prod.snd

/-- Python sequence indexing on a branch array: a nonnegative index reads
that position, a negative index counts from the end, anything out of range
is `none` (Python raises `IndexError` there). -/
def pyIndex (xs : List Value) (i : Int) : Option Value :=
  if 0 ≤ i then xs.get? i.toNat
  else if 0 ≤ (xs.length : Int) + i then xs.get? ((xs.length : Int) + i).toNat
  else none

/-- `_Object`: one object of some kind in the current row.  The source also
stores the branch-name prefix in a field called `_prefix`; that field is
named `pref` here.  `cls` records the concrete Python class name, used only
in the `_checkIsValid` error message. -/
structure _Object where
  _tree : TTree
  _index : Int
  pref : String
  cls : String

/-- `_Object.isValid`: the index is valid unless it is the sentinel `-1`. -/
def _Object.isValid (o : _Object) : Bool :=
  o._index != -1

/-- `_Object.index`: the bound row-local index. -/
def _Object.index (o : _Object) : Int :=
  o._index

/-- `_Object._checkIsValid`: raise `Exception("%s is not valid" % classname)`
when the object is invalid. -/
def _Object._checkIsValid (o : _Object) : Except PyError Unit :=
  if o.isValid then .ok ()
  else .error (.invalidObject (o.cls ++ " is not valid"))

/-- `_Object.__getattr__`: translate an attribute name into the branch
`<prefix>_<attr>`, check validity, read the element at the object's index
and wrap it in a zero-argument closure (`lambda: val`). -/
def _Object.__getattr__ (o : _Object) (attr : String) :
    Except PyError (Unit → Value) :=
  match o._checkIsValid with
  | .error e => .error e
  | .ok _ =>
    match o._tree.getBranch (o.pref ++ "_" ++ attr) with
    | none => .error (.attributeError (o.pref ++ "_" ++ attr))
    | some arr =>
      match pyIndex arr o._index with
      | none => .error .indexError
      | some v => .ok (fun _ => v)

/-- Field access as the caller performs it, `obj.attr()`: look the attribute
up through `__getattr__` and apply the returned closure. -/
def _Object.get (o : _Object) (attr : String) : Except PyError Value :=
  match o.__getattr__ attr with
  | .error e => .error e
  | .ok f => .ok (f ())

/-- `_Collection`: all objects of one kind in the current row.  `_objclass`
is the Python class used to build each object; calling a class can itself
raise, so it is modelled as a function into `Except`. -/
structure _Collection where
  _tree : TTree
  _sizeBranch : String
  _objclass : TTree → Int → Except PyError _Object

/-- `_Collection.size`: the array length of the sizing branch for the
current row (`getattr(tree, sizeBranch).size()`). -/
def _Collection.size (c : _Collection) : Except PyError Int :=
  match c._tree.getBranch c._sizeBranch with
  | none => .error (.attributeError c._sizeBranch)
  | some arr => .ok (arr.length : Int)

/-- `_Collection.__len__` delegates to `size`. -/
def _Collection.__len__ (c : _Collection) : Except PyError Int :=
  c.size

/-- `_Collection.__getitem__`: construct the object of this kind at the
given index.  No bounds check is performed. -/
def _Collection.__getitem__ (c : _Collection) (index : Int) :
    Except PyError _Object :=
  c._objclass c._tree index

/-- Run an object constructor over a list of indices, yielding the
constructed objects in order; a raised exception aborts the traversal.
This is the meaning of a fully consumed generator that yields one
constructed object per index. -/
def mapObjs (f : Int → Except PyError _Object) :
    List Int → Except PyError (List _Object)
  | [] => .ok []
  | i :: rest =>
    match f i with
    | .error e => .error e
    | .ok o =>
      match mapObjs f rest with
      | .error e => .error e
      | .ok os => .ok (o :: os)

/-- `_Collection.__iter__`: each call builds a fresh generator that walks
`xrange(self.size())` and yields `self._objclass(self._tree, index)` for
each index; consuming it fully yields this list. -/
def _Collection.__iter__ (c : _Collection) : Except PyError (List _Object) :=
  match c.size with
  | .error e => .error e
  | .ok n => mapObjs (c._objclass c._tree) ((List.range n.toNat).map Int.ofNat)

/-! ### The catalog of concrete classes -/

/-- `Track(tree, index)`: an `_Object` with branch prefix `"track"`. -/
def Track (tree : TTree) (index : Int) : Except PyError _Object :=
  .ok ⟨tree, index, "track", "Track"⟩

/-- `Tracks(tree)`: the track collection, sized by `track_pt`. -/
def Tracks (tree : TTree) : _Collection :=
  ⟨tree, "track_pt", Track⟩

/-- `GenParticle(tree, index)`: branch prefix `"genpart"`. -/
def GenParticle (tree : TTree) (index : Int) : Except PyError _Object :=
  .ok ⟨tree, index, "genpart", "GenParticle"⟩

/-- `GenParticles(tree)`: sized by `genpart_pt`. -/
def GenParticles (tree : TTree) : _Collection :=
  ⟨tree, "genpart_pt", GenParticle⟩

/-- `CaloParticle(tree)`: the constructor body is
`super(CaloParticle, self).__init__(tree, index, "calopart")`, but `index`
is not a parameter and is not defined anywhere in scope, so every call
raises `NameError` before an object can be produced. -/
def CaloParticle (tree : TTree) : Except PyError _Object :=
  let _ := tree
  .error (.nameError "index")

/-- `CaloParticles(tree)`: sized by `calopart_pt`.  Its `_objclass` is the
two-parameter class `CaloParticle`, but `_Collection.__getitem__` calls it
with `(tree, index)`; the extra argument makes every such call raise
`TypeError` (and the constructor body would raise `NameError` anyway). -/
def CaloParticles (tree : TTree) : _Collection :=
  ⟨tree, "calopart_pt", fun t i =>
    let _ := t
    let _ := i
    .error (.typeError "__init__() takes exactly 2 arguments (3 given)")⟩

/-- `MultiCluster(tree, index)`: branch prefix `"multiclus"`. -/
def MultiCluster (tree : TTree) (index : Int) : Except PyError _Object :=
  .ok ⟨tree, index, "multiclus", "MultiCluster"⟩

/-- `MultiClusters(tree)`: sized by `multiclus_pt`. -/
def MultiClusters (tree : TTree) : _Collection :=
  ⟨tree, "multiclus_pt", MultiCluster⟩

/-- `LayerCluster(tree, index)`: branch prefix `"cluster2d"`. -/
def LayerCluster (tree : TTree) (index : Int) : Except PyError _Object :=
  .ok ⟨tree, index, "cluster2d", "LayerCluster"⟩

/-- `LayerClusters(tree)`: sized by `cluster2d_pt`. -/
def LayerClusters (tree : TTree) : _Collection :=
  ⟨tree, "cluster2d_pt", LayerCluster⟩

/-- `RecHit(tree, index)`: branch prefix `"rechit"`. -/
def RecHit (tree : TTree) (index : Int) : Except PyError _Object :=
  .ok ⟨tree, index, "rechit", "RecHit"⟩

/-- `RecHits(tree)`: sized by `rechit_pt`. -/
def RecHits (tree : TTree) : _Collection :=
  ⟨tree, "rechit_pt", RecHit⟩

/-- `Electron(tree, index)`: branch prefix `"ecalDrivenGsfele"`. -/
def Electron (tree : TTree) (index : Int) : Except PyError _Object :=
  .ok ⟨tree, index, "ecalDrivenGsfele", "Electron"⟩

/-- `Electrons(tree)`: sized by `ecalDrivenGsfele_pt`. -/
def Electrons (tree : TTree) : _Collection :=
  ⟨tree, "ecalDrivenGsfele_pt", Electron⟩

/-- `PFClusterFromMultiCl(tree, index)`: branch prefix
`"pfclusterFromMultiCl"`. -/
def PFClusterFromMultiCl (tree : TTree) (index : Int) :
    Except PyError _Object :=
  .ok ⟨tree, index, "pfclusterFromMultiCl", "PFClusterFromMultiCl"⟩

/-- `PFClustersFromMultiCl(tree)`: sized by `pfclusterFromMultiCl_pt`. -/
def PFClustersFromMultiCl (tree : TTree) : _Collection :=
  ⟨tree, "pfclusterFromMultiCl_pt", PFClusterFromMultiCl⟩

/-- `MultiCluster.layerClusters`: read this multicluster's `cluster2d`
field (a list of layer-cluster indices via `self.cluster2d()`) and yield
`LayerCluster(self._tree, i)` for each stored index `i`, in stored order. -/
def MultiCluster.layerClusters (mc : _Object) :
    Except PyError (List _Object) :=
  match mc.get "cluster2d" with
  | .error e => .error e
  | .ok (.num _) => .error (.typeError "not iterable")
  | .ok (.idxList l) => mapObjs (LayerCluster mc._tree) l

/-- `Electron.clustersFromMultiCl`: read this electron's `pfClusterIndex`
field and yield `PFClusterFromMultiCl(self._tree, i)` for each stored
index. -/
def Electron.clustersFromMultiCl (el : _Object) :
    Except PyError (List _Object) :=
  match el.get "pfClusterIndex" with
  | .error e => .error e
  | .ok (.num _) => .error (.typeError "not iterable")
  | .ok (.idxList l) => mapObjs (PFClusterFromMultiCl el._tree) l

/-! ### Row cursor and store handle -/

/-- `Event`: the row cursor, holding the backing tree and the entry
number. -/
structure Event where
  _tree : TTree
  _entry : Int

/-- `Event.entry`. -/
def Event.entry (e : Event) : Int :=
  e._entry

/-- `Event.tracks`: a fresh `Tracks` collection over this event's tree. -/
def Event.tracks (e : Event) : _Collection :=
  Tracks e._tree

/-- `Event.genParticles`: a fresh `GenParticles` collection. -/
def Event.genParticles (e : Event) : _Collection :=
  GenParticles e._tree

/-- `Event.caloParticles`: the source returns `CaloParticle(self._tree)` —
the object class, not the `CaloParticles` collection — and that constructor
raises `NameError` on every call. -/
def Event.caloParticles (e : Event) : Except PyError _Object :=
  CaloParticle e._tree

/-- `Event.multiClusters`: a fresh `MultiClusters` collection. -/
def Event.multiClusters (e : Event) : _Collection :=
  MultiClusters e._tree

/-- `Event.layerClusters`: a fresh `LayerClusters` collection. -/
def Event.layerClusters (e : Event) : _Collection :=
  LayerClusters e._tree

/-- `Event.pfclustersFromMultiCl`: a fresh `PFClustersFromMultiCl`
collection. -/
def Event.pfclustersFromMultiCl (e : Event) : _Collection :=
  PFClustersFromMultiCl e._tree

/-- `Event.recHits`: a fresh `RecHits` collection. -/
def Event.recHits (e : Event) : _Collection :=
  RecHits e._tree

/-- `Event.electrons`: a fresh `Electrons` collection. -/
def Event.electrons (e : Event) : _Collection :=
  Electrons e._tree

/-- `TTree.LoadTree(i)`: for a plain (non-chained) tree, the local entry
number `i` when `0 <= i < nentries`, a negative code otherwise. -/
def TTree.LoadTree (t : TTree) (i : Int) : Int :=
  if 0 ≤ i ∧ i < t.nentries then i else -2

/-- `TTree.GetEntry(i)`: the number of bytes read for entry `i`; `<= 0`
signals a failed read.  (The row buffer it fills is the tree's current
branch data, kept abstract here.) -/
def TTree.GetEntry (t : TTree) (i : Int) : Int :=
  t.readBytes i

/-- `HGCALNtuple`: the store handle, holding the tree and its cached entry
count (`self._entries = self._tree.GetEntriesFast()`). -/
structure HGCALNtuple where
  _tree : TTree
  _entries : Int

/-- Build an `HGCALNtuple` over a tree, as the constructor does after
opening the file. -/
def HGCALNtuple.onTree (t : TTree) : HGCALNtuple :=
  ⟨t, t.nentries⟩

/-- `HGCALNtuple.nevents`. -/
def HGCALNtuple.nevents (n : HGCALNtuple) : Int :=
  n._entries

/-- `HGCALNtuple.getEvent(index)`: `LoadTree`, return `None` when it fails;
then `GetEntry`.  The source line `if nb <= 0: None` evaluates the bare
expression `None` and discards it — there is no `return`, so control falls
through and an `Event` is returned even when the read reported no bytes. -/
def HGCALNtuple.getEvent (n : HGCALNtuple) (index : Int) : Option Event :=
  let ientry := n._tree.LoadTree index
  if ientry < 0 then none
  else
    let nb := n._tree.GetEntry ientry
    let _ := nb ≤ 0
    some ⟨n._tree, ientry⟩

/-- One step of `HGCALNtuple.__iter__` per pending entry number: a failed
`LoadTree` breaks the loop, a read of no bytes is skipped (`continue`), and
otherwise an `Event` is yielded. -/
def iterEventsFrom (t : TTree) : List Int → List Event
  | [] => []
  | j :: rest =>
    if t.LoadTree j < 0 then []
    else if t.GetEntry j ≤ 0 then iterEventsFrom t rest
    else ⟨t, j⟩ :: iterEventsFrom t rest

/-- `HGCALNtuple.__iter__`: walk `xrange(self._entries)`, breaking on a
failed `LoadTree` and skipping entries whose `GetEntry` reads no bytes. -/
def HGCALNtuple.__iter__ (n : HGCALNtuple) : List Event :=
  iterEventsFrom n._tree ((List.range n._entries.toNat).map Int.ofNat)

/-! ### The `LayerCluster.rechits` recursion -/

/-- The type of items the generator `LayerCluster.rechits` would yield.
Inside the body, `self.rechits` resolves to the method itself (ordinary
attribute lookup finds the class method before `__getattr__` is consulted),
so every yielded item would be `RecHit(self._tree, x)` for `x` an item
yielded by the fresh recursive generator.  There is no base case, so this
type has no inhabitants. -/
inductive RecHitsItem where
  | rechitOf : TTree → RecHitsItem → RecHitsItem

/-- Fuel-bounded unfolding of `LayerCluster.rechits`.  The body is
`for rechit_index in self.rechits(): yield RecHit(self._tree, rechit_index)`:
it fully consumes a fresh recursive call to `rechits` itself and maps each
of its items.  `none` means the given unfolding depth did not suffice to
produce the yielded sequence. -/
def LayerCluster.rechitsFuel (lc : _Object) : Nat → Option (List RecHitsItem)
  | 0 => none
  | fuel + 1 =>
    match LayerCluster.rechitsFuel lc fuel with
    | none => none
    | some items => some (items.map (RecHitsItem.rechitOf lc._tree))

/-! ### Concrete fixtures -/

/-- A small well-formed tree: one row with three tracks, one genparticle,
one multicluster whose `cluster2d` field stores the index list `[2, 5, 7]`,
eight layer clusters, one rechit, two electrons and three PF clusters. -/
def sampleTree : TTree :=
  ⟨[("track_pt", [.num 10, .num 20, .num 30]),
    ("genpart_pt", [.num 1]),
    ("multiclus_pt", [.num 5]),
    ("multiclus_cluster2d", [.idxList [2, 5, 7]]),
    ("cluster2d_pt",
      [.num 1, .num 2, .num 3, .num 4, .num 5, .num 6, .num 7, .num 8]),
    ("rechit_pt", [.num 9]),
    ("ecalDrivenGsfele_pt", [.num 4, .num 6]),
    ("pfclusterFromMultiCl_pt", [.num 1, .num 2, .num 3])],
   1, fun _ => 100⟩

/-- A tree whose track branches deliberately disagree in length:
`track_pt` has two entries while `track_x` has three. -/
def mismatchTree : TTree :=
  ⟨[("track_pt", [.num 10, .num 20]),
    ("track_x", [.num 1, .num 2, .num 3])],
   1, fun _ => 100⟩

/-- A tree with one entry whose `GetEntry` reads no bytes (a corrupt
record). -/
def failReadTree : TTree :=
  ⟨[], 1, fun _ => 0⟩

/-! ### Helper lemmas -/

/-- The collection factories reachable from an `Event` that are built on a
working object class. -/
def eventCollections : List (TTree → _Collection) :=
  [Tracks, GenParticles, MultiClusters, LayerClusters, RecHits, Electrons,
   PFClustersFromMultiCl]

/-- A collection factory is built on prefix `p` and class name `c` when it
stores the given tree and its object class constructs plain objects with
that prefix and class name. -/
def collSpec (mk : TTree → _Collection) (p c : String) : Prop :=
  ∀ t : TTree, (mk t)._tree = t ∧
    ∀ i : Int, (mk t)._objclass t i = .ok ⟨t, i, p, c⟩

theorem eventCollections_spec (mk : TTree → _Collection)
    (h : mk ∈ eventCollections) : ∃ p c, collSpec mk p c := by
  simp only [eventCollections, List.mem_cons, List.not_mem_nil, or_false] at h
  rcases h with rfl | rfl | rfl | rfl | rfl | rfl | rfl
  · exact ⟨"track", "Track", fun t => ⟨rfl, fun i => rfl⟩⟩
  · exact ⟨"genpart", "GenParticle", fun t => ⟨rfl, fun i => rfl⟩⟩
  · exact ⟨"multiclus", "MultiCluster", fun t => ⟨rfl, fun i => rfl⟩⟩
  · exact ⟨"cluster2d", "LayerCluster", fun t => ⟨rfl, fun i => rfl⟩⟩
  · exact ⟨"rechit", "RecHit", fun t => ⟨rfl, fun i => rfl⟩⟩
  · exact ⟨"ecalDrivenGsfele", "Electron", fun t => ⟨rfl, fun i => rfl⟩⟩
  · exact ⟨"pfclusterFromMultiCl", "PFClusterFromMultiCl",
      fun t => ⟨rfl, fun i => rfl⟩⟩

theorem mapObjs_ok (f : Int → Except PyError _Object) (g : Int → _Object)
    (hf : ∀ i, f i = .ok (g i)) :
    ∀ l : List Int, mapObjs f l = .ok (l.map g) := by
  intro l
  induction l with
  | nil => rfl
  | cons a l ih => simp [mapObjs, hf a, ih]

/-! ### Claims -/

/-- C1: for every valid Object View (`index() != -1`) and every field name
that has a corresponding column, generic field access on that field name
returns the element of the array stored in column `<prefix>_<fieldName>` at
position `index()`. -/
theorem C1_field_access (o : _Object) (attr : String) (arr : List Value)
    (v : Value) (hvalid : o._index ≠ -1)
    (hbranch : o._tree.getBranch (o.pref ++ "_" ++ attr) = some arr)
    (helem : pyIndex arr o._index = some v) :
    o.get attr = .ok v := by
  simp [_Object.get, _Object.__getattr__, _Object._checkIsValid,
    _Object.isValid, hvalid, hbranch, helem]

/-- C1 witness: on the sample tree, track 1 has `pt` 20. -/
theorem C1_field_access_witness :
    _Object.get ⟨sampleTree, 1, "track", "Track"⟩ "pt" = .ok (.num 20) :=
  C1_field_access ⟨sampleTree, 1, "track", "Track"⟩ "pt"
    [.num 10, .num 20, .num 30] (.num 20) (by decide) rfl rfl

/-- C2: `isValid()` is true iff `index() != -1`; `get(-1)` on any catalogued
Collection View yields an invalid Object View; and any field access on an
object whose index is `-1` raises the invalid-object exception without
returning a value. -/
theorem C2_validity_sentinel :
    (∀ o : _Object, o.isValid = true ↔ o._index ≠ -1) ∧
    (∀ mk ∈ eventCollections, ∀ t : TTree,
      ((mk t).__getitem__ (-1)).map _Object.isValid = .ok false) ∧
    (∀ o : _Object, o._index = -1 → ∀ attr : String,
      o.get attr = .error (.invalidObject (o.cls ++ " is not valid"))) := by
  refine ⟨fun o => ?_, fun mk hmk t => ?_, fun o h attr => ?_⟩
  · simp [_Object.isValid]
  · obtain ⟨p, c, hspec⟩ := eventCollections_spec mk hmk
    obtain ⟨htree, hobj⟩ := hspec t
    simp [_Collection.__getitem__, htree, hobj, _Object.isValid, Except.map]
  · simp [_Object.get, _Object.__getattr__, _Object._checkIsValid,
      _Object.isValid, h]

/-- C2 witness: on the sample tree, the track collection at index `-1`
yields an invalid view, and field access on an index `-1` track raises
the invalid-object exception. -/
theorem C2_validity_sentinel_witness :
    (_Object.isValid ⟨sampleTree, 0, "track", "Track"⟩ = true ↔
      (⟨sampleTree, 0, "track", "Track"⟩ : _Object)._index ≠ -1) ∧
    ((Tracks sampleTree).__getitem__ (-1)).map _Object.isValid = .ok false ∧
    _Object.get ⟨sampleTree, -1, "track", "Track"⟩ "pt" =
      .error (.invalidObject "Track is not valid") :=
  ⟨C2_validity_sentinel.1 ⟨sampleTree, 0, "track", "Track"⟩,
   C2_validity_sentinel.2.1 Tracks (by simp [eventCollections]) sampleTree,
   C2_validity_sentinel.2.2 ⟨sampleTree, -1, "track", "Track"⟩ rfl "pt"⟩

/-- C3: for every catalogued Collection View and every index `i` in
`[0, size())`, `get(i)` returns an Object View with `index() == i` and
`isValid() == True`. -/
theorem C3_get_in_range (mk : TTree → _Collection)
    (hmk : mk ∈ eventCollections) (t : TTree) (i n : Int)
    (hsize : (mk t).size = .ok n) (h0 : 0 ≤ i) (hn : i < n) :
    ((mk t).__getitem__ i).map (fun o => (o.index, o.isValid)) =
      .ok (i, true) := by
  obtain ⟨p, c, hspec⟩ := eventCollections_spec mk hmk
  obtain ⟨htree, hobj⟩ := hspec t
  have hne : i ≠ -1 := by omega
  simp [_Collection.__getitem__, htree, hobj, _Object.index, _Object.isValid,
    Except.map, hne]

/-- C3 witness: on the sample tree, track 0 of a three-track collection has
index 0 and is valid. -/
theorem C3_get_in_range_witness :
    ((Tracks sampleTree).__getitem__ 0).map
      (fun o => (o.index, o.isValid)) = .ok (0, true) :=
  C3_get_in_range Tracks (by simp [eventCollections]) sampleTree 0 3 rfl
    (by decide) (by decide)

/-- C4: for every composite-cluster object whose `cluster2d` field stores an
index list `l`, iterating `layerClusters()` yields exactly the layer-cluster
objects built on the stored indices, in stored order, with no deduplication
and no reordering: the yielded sequence is the map of the layer-cluster
constructor over `l`, its index sequence equals `l`, and each yielded object
is the one the `LayerClusters` Collection View returns at that index. -/
theorem C4_cross_reference (mc : _Object) (l : List Int)
    (hfield : mc.get "cluster2d" = .ok (.idxList l)) :
    MultiCluster.layerClusters mc =
      .ok (l.map (fun i => ⟨mc._tree, i, "cluster2d", "LayerCluster"⟩)) ∧
    (l.map (fun i =>
      (⟨mc._tree, i, "cluster2d", "LayerCluster"⟩ : _Object))).map
        _Object.index = l ∧
    ∀ i : Int, (LayerClusters mc._tree).__getitem__ i =
      .ok ⟨mc._tree, i, "cluster2d", "LayerCluster"⟩ := by
  refine ⟨?_, ?_, fun i => rfl⟩
  · rw [MultiCluster.layerClusters, hfield]
    exact mapObjs_ok (LayerCluster mc._tree)
      (fun i => ⟨mc._tree, i, "cluster2d", "LayerCluster"⟩) (fun i => rfl) l
  · simp [List.map_map, Function.comp_def, _Object.index]

/-- C4 witness: on the sample tree, multicluster 0 stores `[2, 5, 7]` and
its `layerClusters()` yields the layer clusters at indices 2, 5, 7, which
are the ones the `LayerClusters` view returns at those indices. -/
theorem C4_cross_reference_witness :
    MultiCluster.layerClusters ⟨sampleTree, 0, "multiclus", "MultiCluster"⟩ =
      .ok [⟨sampleTree, 2, "cluster2d", "LayerCluster"⟩,
           ⟨sampleTree, 5, "cluster2d", "LayerCluster"⟩,
           ⟨sampleTree, 7, "cluster2d", "LayerCluster"⟩] ∧
    (LayerClusters sampleTree).__getitem__ 5 =
      .ok ⟨sampleTree, 5, "cluster2d", "LayerCluster"⟩ :=
  ⟨(C4_cross_reference ⟨sampleTree, 0, "multiclus", "MultiCluster"⟩
      [2, 5, 7] rfl).1,
   (C4_cross_reference ⟨sampleTree, 0, "multiclus", "MultiCluster"⟩
      [2, 5, 7] rfl).2.2 5⟩

/-- C5 counterexample: on a tree whose `track_pt` has two entries while
`track_x` has three (violating the equal-lengths invariant), `size()` on
the track collection returns `2` normally — no error of any kind is raised,
contradicting the claim that the mismatch is reported. -/
theorem C5_counterexample :
    (Tracks mismatchTree).size = .ok 2 ∧
    (mismatchTree.getBranch "track_pt").map List.length = some 2 ∧
    (mismatchTree.getBranch "track_x").map List.length = some 3 :=
  ⟨rfl, rfl, rfl⟩

/-- C5 amended: `size()` returns the array length of the kind's sizing
field for the current row; disagreement between the field-array lengths of
the kind within the row is not detected — `size()` returns the sizing
field's length regardless, raising nothing. -/
theorem C5_size_is_sizing_length (c : _Collection) (arr : List Value)
    (h : c._tree.getBranch c._sizeBranch = some arr) :
    c.size = .ok (arr.length : Int) := by
  simp [_Collection.size, h]

/-- C5 witness: the amended statement on the mismatched fixture. -/
theorem C5_size_is_sizing_length_witness :
    (Tracks mismatchTree).size = .ok ((2 : Nat) : Int) :=
  C5_size_is_sizing_length (Tracks mismatchTree) [.num 10, .num 20] rfl

/-- C6: for every valid Object View of every object kind (any branch
prefix), accessing a field name for which no column `<prefix>_<fieldName>`
exists raises the missing-column error. -/
theorem C6_unknown_field (o : _Object) (attr : String)
    (hvalid : o._index ≠ -1)
    (hmissing : o._tree.getBranch (o.pref ++ "_" ++ attr) = none) :
    o.get attr = .error (.attributeError (o.pref ++ "_" ++ attr)) := by
  simp [_Object.get, _Object.__getattr__, _Object._checkIsValid,
    _Object.isValid, hvalid, hmissing]

/-- C6 witness: accessing `bogus` on a valid track of the sample tree
raises the missing-column error for `track_bogus`. -/
theorem C6_unknown_field_witness :
    _Object.get ⟨sampleTree, 0, "track", "Track"⟩ "bogus" =
      .error (.attributeError "track_bogus") :=
  C6_unknown_field ⟨sampleTree, 0, "track", "Track"⟩ "bogus" (by decide) rfl

/-- C7: iterating a catalogued Collection View is restartable, not
one-shot: every traversal is a fresh generator over `xrange(size())`, a
pure function of the view, so any two traversals of the same view yield
the same finite index sequence `0, 1, ..., size()-1`. -/
theorem C7_reiteration (mk : TTree → _Collection)
    (hmk : mk ∈ eventCollections) (t : TTree) (n : Int)
    (hsize : (mk t).size = .ok n) :
    ((mk t).__iter__).map (fun objs => objs.map _Object.index) =
      .ok ((List.range n.toNat).map Int.ofNat) := by
  obtain ⟨p, c, hspec⟩ := eventCollections_spec mk hmk
  obtain ⟨htree, hobj⟩ := hspec t
  rw [_Collection.__iter__, hsize, htree]
  simp [mapObjs_ok ((mk t)._objclass t) (fun i => ⟨t, i, p, c⟩) hobj,
    Except.map, List.map_map, Function.comp_def, _Object.index]

/-- C7 witness: both traversals of the sample tree's three-track collection
yield the index sequence 0, 1, 2. -/
theorem C7_reiteration_witness :
    ((Tracks sampleTree).__iter__).map (fun objs => objs.map _Object.index) =
      .ok ((List.range (3 : Int).toNat).map Int.ofNat) :=
  C7_reiteration Tracks (by simp [eventCollections]) sampleTree 3 rfl

/-- C8: the claim says every catalogued `Event` factory successfully
returns a fresh Collection View, but `caloParticles()` does not: it calls
`CaloParticle(self._tree)` — the object class, whose constructor body
reads the undefined name `index` — so on any event it raises `NameError`
and returns nothing, while e.g. `tracks()` does return the fresh track
collection over the event's tree. -/
theorem C8_caloParticles_defect :
    (Event.mk sampleTree 0).caloParticles = .error (.nameError "index") ∧
    (Event.mk sampleTree 0).tracks = Tracks sampleTree ∧
    (Event.mk sampleTree 0).genParticles = GenParticles sampleTree ∧
    (Event.mk sampleTree 0).multiClusters = MultiClusters sampleTree ∧
    (Event.mk sampleTree 0).layerClusters = LayerClusters sampleTree ∧
    (Event.mk sampleTree 0).recHits = RecHits sampleTree ∧
    (Event.mk sampleTree 0).electrons = Electrons sampleTree ∧
    (Event.mk sampleTree 0).pfclustersFromMultiCl =
      PFClustersFromMultiCl sampleTree :=
  ⟨rfl, rfl, rfl, rfl, rfl, rfl, rfl, rfl⟩

/-- C9: the claim says `getEvent` returns no `Event` both when the index is
out of range and when the read of the row fails.  On a one-entry tree whose
`GetEntry` reads no bytes, `getEvent 0` still returns an `Event` (the
source's `if nb <= 0: None` discards the bare `None` instead of returning
it), even though the out-of-range case does return `None` and the sibling
`__iter__` skips exactly this entry. -/
theorem C9_getEvent_failed_read :
    (HGCALNtuple.onTree failReadTree).getEvent 0 =
      some ⟨failReadTree, 0⟩ ∧
    (HGCALNtuple.onTree failReadTree).getEvent 5 = none ∧
    (HGCALNtuple.onTree failReadTree).__iter__ = [] :=
  ⟨rfl, rfl, rfl⟩

/-- C10: for every `LayerCluster` object, the generator returned by
`rechits()` never yields an element and never terminates normally: no
finite unfolding depth produces a yielded sequence, and the type of items
it would yield is uninhabited. -/
theorem C10_rechits_diverges :
    (∀ (lc : _Object) (fuel : Nat),
      LayerCluster.rechitsFuel lc fuel = none) ∧
    ∀ x : RecHitsItem, False := by
  constructor
  · intro lc fuel
    induction fuel with
    | zero => rfl
    | succ m ih => simp [LayerCluster.rechitsFuel, ih]
  · intro x
    induction x with
    | rechitOf t y ih => exact ih

end Ntuple
